import Mathlib

/-!
Shallow embedding of `homeassistant/components/meraki/device_tracker.py`
(the Meraki CMX location webhook).

JSON payloads decoded by `request.json()` are modelled by `PyValue`
(Python objects produced by the `json` module: str, int, float, bool,
None, list, dict).  Python floats are modelled as exact fractions plus
the infinity and NaN points (`PyFloat`); `float(str)` parsing is
modelled exactly on plain decimal literals (optional sign, digits,
decimal point, exponent) and on the `inf` / `infinity` / `nan` names;
digit-group underscores and hexadecimal forms are outside the model.
Dicts are association lists in insertion order with unique keys, as the
`json` module produces.  Exceptions are modelled with `Except PyError`.

`post` models `MerakiView.post` from the point where the JSON body has
been decoded: it returns the list of payload values that are debug
serialized (the `json.dumps(data)` on entry) together with either an
uncaught exception or a `PostOutcome` holding the HTTP response, the
`async_see` sink invocations made by `MerakiView._handle`, and the final
state of the (mutated) payload.
-/

set_option autoImplicit false

/-- An exact fraction with a positive denominator (every operation below
keeps `den` a positive power of ten times a positive number): the exact
value a Python float holds in the decimal cases this integration
exercises. -/
structure Frac where
  num : Int
  den : Nat
  deriving DecidableEq, Repr

inductive PyValue where
  | str (s : String)
  | int (n : Int)
  | float (f : Frac)
  | bool (b : Bool)
  | null
  | list (xs : List PyValue)
  | dict (kvs : List (String × PyValue))

inductive PyError where
  | keyError
  | typeError
  | valueError
  | attributeError
  | overflowError
  deriving DecidableEq, Repr

/-- A Python float value: finite (exact fraction model), infinite or NaN. -/
inductive PyFloat where
  | finite (f : Frac)
  | inf (pos : Bool)
  | nan
  deriving DecidableEq, Repr

/-- First-match association-list lookup, Python dict `d[k]` order. -/
def dictFind : List (String × PyValue) → String → Option PyValue
  | [], _ => Option.none
  | (k1, v1) :: rest, k => if k1 = k then some v1 else dictFind rest k

/-- Python dict item assignment: an existing key keeps its position, a
new key is appended (insertion order). -/
def dictSet : List (String × PyValue) → String → PyValue → List (String × PyValue)
  | [], k, v => [(k, v)]
  | (k1, v1) :: rest, k, v =>
      if k1 = k then (k, v) :: rest else (k1, v1) :: dictSet rest k v

/-- Python subscript `v[k]` with a string key: `KeyError` when the key is
missing, `TypeError` when `v` is not a dict. -/
def pyIndex (v : PyValue) (k : String) : Except PyError PyValue :=
  match v with
  | PyValue.dict kvs =>
      match dictFind kvs k with
      | some x => Except.ok x
      | Option.none => Except.error PyError.keyError
  | _ => Except.error PyError.typeError

/-- Python `v.get(k, default)`: `AttributeError` when `v` is not a dict. -/
def pyGet (v : PyValue) (k : String) (dflt : PyValue) : Except PyError PyValue :=
  match v with
  | PyValue.dict kvs =>
      match dictFind kvs k with
      | some x => Except.ok x
      | Option.none => Except.ok dflt
  | _ => Except.error PyError.attributeError

/-- Python `v[k] = x` on a dict, `TypeError` otherwise. -/
def pySetIndex (v : PyValue) (k : String) (x : PyValue) : Except PyError PyValue :=
  match v with
  | PyValue.dict kvs => Except.ok (PyValue.dict (dictSet kvs k x))
  | _ => Except.error PyError.typeError

/-- Python truthiness of a value. -/
def pyTruthy : PyValue → Bool
  | PyValue.str s => decide (s ≠ "")
  | PyValue.int n => decide (n ≠ 0)
  | PyValue.float f => decide (f.num ≠ 0)
  | PyValue.bool b => b
  | PyValue.null => false
  | PyValue.list xs => !xs.isEmpty
  | PyValue.dict kvs => !kvs.isEmpty

/-- Python `v == s` for a string literal `s`: only a str compares equal
to a str; every other type yields False. -/
def pyEqStr (v : PyValue) (s : String) : Bool :=
  match v with
  | PyValue.str t => decide (t = s)
  | _ => false

/-- Python `str(v)`.  Exact on the scalar values the integration applies
it to (`str(mac)` where `clientMac` is a string in every payload this
claims set touches); container and float rendering is a coarse model and
is never relied upon by a theorem below. -/
def pyStr : PyValue → String
  | PyValue.str s => s
  | PyValue.int n => toString n
  | PyValue.float f => toString f.num
  | PyValue.bool b => if b then "True" else "False"
  | PyValue.null => "None"
  | PyValue.list _ => "<list>"
  | PyValue.dict _ => "<dict>"

/-- Numeric value of a list of decimal digits. -/
def digitsToNat (ds : List Char) : Nat :=
  ds.foldl (fun a c => a * 10 + (c.toNat - 48)) 0

/-- Split a leading run of decimal digits from the rest. -/
def takeDigits (cs : List Char) : List Char × List Char :=
  (cs.takeWhile Char.isDigit, cs.dropWhile Char.isDigit)

/-- `m * 10 ^ e` on exact fractions. -/
def Frac.mulPow10 (m : Frac) (e : Nat) : Frac :=
  { num := m.num * (10 ^ e : Nat), den := m.den }

/-- `m / 10 ^ e` on exact fractions. -/
def Frac.divPow10 (m : Frac) (e : Nat) : Frac :=
  { num := m.num, den := m.den * 10 ^ e }

/-- `-m` on exact fractions. -/
def Frac.neg (m : Frac) : Frac :=
  { num := -m.num, den := m.den }

/-- Optional exponent suffix of a Python float literal applied to an
already-parsed mantissa; rejects any other trailing characters. -/
def parseExp (cs : List Char) (m : Frac) : Option Frac :=
  match cs with
  | [] => some m
  | c :: rest =>
      if c = 'e' ∨ c = 'E' then
        let signRest : Bool × List Char :=
          match rest with
          | '+' :: r => (false, r)
          | '-' :: r => (true, r)
          | r => (false, r)
        let ed := takeDigits signRest.2
        if ed.1.isEmpty ∨ ¬ ed.2.isEmpty then Option.none
        else
          let e := digitsToNat ed.1
          some (if signRest.1 then m.divPow10 e else m.mulPow10 e)
      else Option.none

/-- Unsigned decimal float literal: `digits [. digits]`, `. digits` or
`digits .`, with an optional exponent.  The mantissa
`intpart + fracpart / 10 ^ k` is built as the exact fraction
`(intpart * 10 ^ k + fracpart) / 10 ^ k`. -/
def floatParseCore (cs : List Char) : Option Frac :=
  let ip := takeDigits cs
  match ip.2 with
  | '.' :: r2 =>
      let fp := takeDigits r2
      if ip.1.isEmpty ∧ fp.1.isEmpty then Option.none
      else
        parseExp fp.2
          { num := (digitsToNat ip.1 * 10 ^ fp.1.length + digitsToNat fp.1 : Nat),
            den := 10 ^ fp.1.length }
  | _ =>
      if ip.1.isEmpty then Option.none
      else parseExp ip.2 { num := (digitsToNat ip.1 : Nat), den := 1 }

/-- Lower-case every character of a string. -/
def lowerString (s : String) : String :=
  String.mk (s.toList.map Char.toLower)

/-- Strip leading and trailing whitespace, the stripping `float(str)`
performs. -/
def stripChars (cs : List Char) : List Char :=
  ((cs.dropWhile Char.isWhitespace).reverse.dropWhile Char.isWhitespace).reverse

/-- Python `float(s)` on a string: surrounding whitespace stripped,
optional sign, then a decimal literal or the special names
`inf` / `infinity` / `nan` (case-insensitive).  `Option.none` means the
call raises `ValueError`. -/
def floatParse (s : String) : Option PyFloat :=
  let cs := stripChars s.toList
  let signed : Bool × List Char :=
    match cs with
    | '+' :: r => (false, r)
    | '-' :: r => (true, r)
    | r => (false, r)
  let low := lowerString (String.mk signed.2)
  if low = "inf" ∨ low = "infinity" then some (PyFloat.inf (!signed.1))
  else if low = "nan" then some PyFloat.nan
  else
    match floatParseCore signed.2 with
    | some q => some (PyFloat.finite (if signed.1 then q.neg else q))
    | Option.none => Option.none

/-- Python `float(v)` on an arbitrary value. -/
def pyFloatFn : PyValue → Except PyError PyFloat
  | PyValue.str s =>
      match floatParse s with
      | some f => Except.ok f
      | Option.none => Except.error PyError.valueError
  | PyValue.int n => Except.ok (PyFloat.finite { num := n, den := 1 })
  | PyValue.float f => Except.ok (PyFloat.finite f)
  | PyValue.bool b => Except.ok (PyFloat.finite { num := if b then 1 else 0, den := 1 })
  | _ => Except.error PyError.typeError

/-- Truncation toward zero, the behaviour of Python `int(float)`. -/
def fracTrunc (f : Frac) : Int :=
  f.num.tdiv (f.den : Int)

/-- Python `int(f)` on a float: truncates finite values toward zero,
raises `ValueError` on NaN and `OverflowError` on infinities. -/
def pyIntOfFloat : PyFloat → Except PyError Int
  | PyFloat.finite f => Except.ok (fracTrunc f)
  | PyFloat.nan => Except.error PyError.valueError
  | PyFloat.inf _ => Except.error PyError.overflowError

/-- Immutable configuration of `MerakiView` (`CONF_SECRET`,
`CONF_VALIDATOR`). -/
structure Config where
  secret : String
  validator : String

/-- One invocation of the `async_see` presence sink, the keyword
arguments of the call in `MerakiView._handle`. -/
structure SinkCall where
  gps : Option (PyValue × PyValue)
  mac : PyValue
  dev_id : PyValue
  host_name : PyValue
  source_type : String
  gps_accuracy : Option Int
  attributes : List (String × PyValue)

/-- Result of a `post` call that did not raise: the HTTP response
(`some (message, status)` for a `json_message` reply, `Option.none` for
the bare `return` paths, an implicit 200), the sink invocations, and the
final state of the payload object. -/
structure PostOutcome where
  response : Option (String × Nat)
  sinkCalls : List SinkCall
  finalData : PyValue

/-- The source line `if i.get(k, False): attrs[k] = i[k]` of
`MerakiView._handle`, appending to the attrs dict. -/
def addIfTruthy (i : PyValue) (k : String) (attrs : List (String × PyValue)) :
    Except PyError (List (String × PyValue)) := do
  let v ← pyGet i k (PyValue.bool false)
  if pyTruthy v then
    let x ← pyIndex i k
    pure (attrs ++ [(k, x)])
  else
    pure attrs

/-- The body of the `try` at lines 99-100:
`int(float(i["location"]["unc"]))`. -/
def uncAccuracy (i : PyValue) : Except PyError Int := do
  let loc3 ← pyIndex i "location"
  let unc ← pyIndex loc3 "unc"
  let f ← pyFloatFn unc
  pyIntOfFloat f

/-- The `try ... except ValueError: accuracy = 0` of lines 99-102: a
`ValueError` is replaced by the default 0, every other exception
propagates. -/
def caughtAccuracy (i : PyValue) : Except PyError Int :=
  match uncAccuracy i with
  | Except.ok n => Except.ok n
  | Except.error PyError.valueError => Except.ok 0
  | Except.error e => Except.error e

/-- The per-observation body of the loop in `MerakiView._handle` (lines
97-143), excluding the payload mutation: reads `location.lat` and
`location.lng`, converts `location.unc` with
`int(float(...))` guarded by `except ValueError` (defaulting to 0),
reads `clientMac`, applies the literal `"NaN"` sentinel check, builds the
attribute dict, and produces the `async_see` keyword arguments. -/
def processObservation (ap_mac : PyValue) (i : PyValue) : Except PyError SinkCall := do
  let loc1 ← pyIndex i "location"
  let lat ← pyIndex loc1 "lat"
  let loc2 ← pyIndex i "location"
  let lng ← pyIndex loc2 "lng"
  let accuracy0 ← caughtAccuracy i
  let mac ← pyIndex i "clientMac"
  let gpsAcc : Option (PyValue × PyValue) × Option Int :=
    if pyEqStr lat "NaN" || pyEqStr lng "NaN" then (Option.none, Option.none)
    else (some (lat, lng), some accuracy0)
  let device_name ← pyGet i "name" (PyValue.str (pyStr mac))
  let a1 ← addIfTruthy i "os" []
  let a2 ← addIfTruthy i "manufacturer" a1
  let a3 ← addIfTruthy i "ipv4" a2
  let a4 ← addIfTruthy i "ipv6" a3
  let a5 ← addIfTruthy i "seenTime" a4
  let a6 ← addIfTruthy i "ssid" a5
  let attrs := if pyTruthy ap_mac then a6 ++ [("ap_mac", ap_mac)] else a6
  pure { gps := gpsAcc.1, mac := mac, dev_id := mac, host_name := device_name,
         source_type := "router", gps_accuracy := gpsAcc.2, attributes := attrs }

/-- The statement `data["data"]["secret"] = "hidden"` executed at the top
of every loop iteration of `MerakiView._handle`: the inner dict is
looked up and its `secret` entry assigned, which rebuilds the enclosing
payload around the updated inner dict. -/
def hideSecret (data : PyValue) : Except PyError PyValue := do
  let dd ← pyIndex data "data"
  let dd2 ← pySetIndex dd "secret" (PyValue.str "hidden")
  pySetIndex data "data" dd2

/-- The `for i in data["data"]["observations"]` loop of
`MerakiView._handle`: per iteration, first the payload mutation, then
the observation processing, accumulating one sink call per
observation. -/
def handleLoop (ap_mac : PyValue) (obs : List PyValue) (data : PyValue)
    (acc : List SinkCall) : Except PyError (PyValue × List SinkCall) :=
  match obs with
  | [] => Except.ok (data, acc)
  | i :: rest => do
      let data2 ← hideSecret data
      let call ← processObservation ap_mac i
      handleLoop ap_mac rest data2 (acc ++ [call])

/-- `MerakiView._handle`: reads `data["data"]["apMac"]`, then iterates
the observation list.  Iterating a non-list (only reachable for truthy
non-list values, whose iteration in Python also ends in a `TypeError`)
is modelled as an immediate `TypeError`. -/
def handle (data : PyValue) : Except PyError (PyValue × List SinkCall) := do
  let dd ← pyIndex data "data"
  let ap_mac ← pyIndex dd "apMac"
  let dd2 ← pyIndex data "data"
  let obsv ← pyIndex dd2 "observations"
  match obsv with
  | PyValue.list obs => handleLoop ap_mac obs data []
  | _ => Except.error PyError.typeError

/-- `MerakiView.post` after the JSON body has been decoded into `data`
(a decode failure returns 400 before this point and serializes
nothing).  The first component lists every payload value passed to a
debug serialization (`json.dumps` at line 69); the second is the
outcome, `Except.error` when an uncaught Python exception escapes the
handler.  422 is `HTTPStatus.UNPROCESSABLE_ENTITY`. -/
def post (cfg : Config) (data : PyValue) : List PyValue × Except PyError PostOutcome :=
  ([data],
   do
    let sv ← pyGet data "secret" (PyValue.bool false)
    if !(pyTruthy sv) then
      pure { response := some ("No secret", 422), sinkCalls := [], finalData := data }
    else do
      let s ← pyIndex data "secret"
      if !(pyEqStr s cfg.secret) then
        pure { response := some ("Invalid secret", 422), sinkCalls := [], finalData := data }
      else do
        let ver ← pyIndex data "version"
        if !(pyEqStr ver "2.0") && !(pyEqStr ver "2.1") then
          pure { response := some ("Invalid version", 422), sinkCalls := [], finalData := data }
        else do
          let ty ← pyIndex data "type"
          if !(pyEqStr ty "DevicesSeen") && !(pyEqStr ty "BluetoothDevicesSeen") then
            pure { response := some ("Invalid device type", 422), sinkCalls := [],
                   finalData := data }
          else do
            let dd ← pyIndex data "data"
            let obsv ← pyIndex dd "observations"
            if !(pyTruthy obsv) then
              pure { response := Option.none, sinkCalls := [], finalData := data }
            else do
              let hres ← handle data
              pure { response := Option.none, sinkCalls := hres.2, finalData := hres.1 })

/-- `MerakiView.get`: returns the configured validator token. -/
def getHandler (cfg : Config) : String :=
  cfg.validator

/-- The scenario observation of the spec (§8): clientMac `11:22`,
location `40.1` / `-3.7` with uncertainty `5.0`, ssid `Guest`. -/
def sampleObservation : PyValue :=
  PyValue.dict
    [("clientMac", PyValue.str "11:22"),
     ("location", PyValue.dict
        [("lat", PyValue.str "40.1"), ("lng", PyValue.str "-3.7"),
         ("unc", PyValue.str "5.0")]),
     ("ssid", PyValue.str "Guest")]

/-- The scenario payload of the spec (§8), with secret `s1`. -/
def samplePayload : PyValue :=
  PyValue.dict
    [("secret", PyValue.str "s1"), ("version", PyValue.str "2.0"),
     ("type", PyValue.str "DevicesSeen"),
     ("data", PyValue.dict
        [("apMac", PyValue.str "AA:BB"),
         ("observations", PyValue.list [sampleObservation])])]

/-- Configuration with shared secret `s1`. -/
def sampleConfig : Config :=
  { secret := "s1", validator := "token1" }

/-- Lookup of the nested `data.secret` entry of a payload, the location
that `MerakiView._handle` writes `"hidden"` to. -/
def subSecret (d : PyValue) : Except PyError PyValue := do
  let dd ← pyIndex d "data"
  pyIndex dd "secret"

/-- The family of observations with a `clientMac`, full `location` dict
(`lat`, `lng`, `unc`) and no further fields. -/
def obsShape (mac lat lng unc : PyValue) : PyValue :=
  PyValue.dict
    [("clientMac", mac),
     ("location", PyValue.dict [("lat", lat), ("lng", lng), ("unc", unc)])]

/-- The family of observations whose `location` dict lacks the `unc`
entry. -/
def obsShapeNoUnc (mac lat lng : PyValue) : PyValue :=
  PyValue.dict
    [("clientMac", mac),
     ("location", PyValue.dict [("lat", lat), ("lng", lng)])]

/-- The family of payloads carrying the configured secret, an arbitrary
`version` value and arbitrary further fields. -/
def badVersionPayload (cfg : Config) (v : PyValue) (rest : List (String × PyValue)) : PyValue :=
  PyValue.dict (("secret", PyValue.str cfg.secret) :: ("version", v) :: rest)

/-- The family of payloads with the configured secret, given version and
type strings, an empty observation list, and arbitrary further fields in
the payload (`rest`) and in the `data` dict (`drest`). -/
def emptyObsPayload (cfg : Config) (ver ty : String)
    (rest drest : List (String × PyValue)) : PyValue :=
  PyValue.dict (("secret", PyValue.str cfg.secret) ::
    ("version", PyValue.str ver) :: ("type", PyValue.str ty) ::
    ("data", PyValue.dict (("observations", PyValue.list []) :: drest)) :: rest)

/-- A payload with a valid secret and type but no `version` field. -/
def payloadNoVersion : PyValue :=
  PyValue.dict
    [("secret", PyValue.str "s1"), ("type", PyValue.str "DevicesSeen")]

/-- A valid payload whose `data` dict has no `apMac` entry. -/
def payloadNoApMac : PyValue :=
  PyValue.dict
    [("secret", PyValue.str "s1"), ("version", PyValue.str "2.0"),
     ("type", PyValue.str "DevicesSeen"),
     ("data", PyValue.dict [("observations", PyValue.list [sampleObservation])])]

/-- The final state of the scenario payload after processing: the inner
`data` dict has gained `secret = "hidden"`; the top-level secret is
untouched. -/
def samplePayloadAfter : PyValue :=
  PyValue.dict
    [("secret", PyValue.str "s1"), ("version", PyValue.str "2.0"),
     ("type", PyValue.str "DevicesSeen"),
     ("data", PyValue.dict
        [("apMac", PyValue.str "AA:BB"),
         ("observations", PyValue.list [sampleObservation]),
         ("secret", PyValue.str "hidden")])]

/-- The sink invocation of the spec scenario (§8). -/
def sampleCall : SinkCall :=
  { gps := some (PyValue.str "40.1", PyValue.str "-3.7"),
    mac := PyValue.str "11:22",
    dev_id := PyValue.str "11:22",
    host_name := PyValue.str "11:22",
    source_type := "router",
    gps_accuracy := some 5,
    attributes := [("ssid", PyValue.str "Guest"), ("ap_mac", PyValue.str "AA:BB")] }

/-- The sink invocation produced for `sampleObservation` when the
request-level `apMac` is falsy (Python `None`): no `ap_mac`
attribute. -/
def sampleCallNoAp : SinkCall :=
  { gps := some (PyValue.str "40.1", PyValue.str "-3.7"),
    mac := PyValue.str "11:22",
    dev_id := PyValue.str "11:22",
    host_name := PyValue.str "11:22",
    source_type := "router",
    gps_accuracy := some 5,
    attributes := [("ssid", PyValue.str "Guest")] }

/-- The sink invocation produced for an observation whose `lat` is the
literal string `NaN`: no coordinates, no accuracy. -/
def nanCall : SinkCall :=
  { gps := Option.none,
    mac := PyValue.str "11:22",
    dev_id := PyValue.str "11:22",
    host_name := PyValue.str "11:22",
    source_type := "router",
    gps_accuracy := Option.none,
    attributes := [("ap_mac", PyValue.str "AA:BB")] }

/-! Helper lemmas about the `Except` monad and association lists. -/

theorem except_bind_ok_iff {ε α β : Type} (x : Except ε α) (f : α → Except ε β) (b : β) :
    x >>= f = Except.ok b ↔ ∃ a, x = Except.ok a ∧ f a = Except.ok b := by
  cases x <;> simp [Bind.bind, Except.bind]

theorem except_pure_eq {ε α : Type} (a : α) : (pure a : Except ε α) = Except.ok a := rfl

theorem pyEqStr_str (t s : String) : pyEqStr (PyValue.str t) s = decide (t = s) := rfl

theorem dictFind_append_single_ne (l : List (String × PyValue)) (k key : String) (x : PyValue)
    (h : ¬ (k = key)) : dictFind (l ++ [(k, x)]) key = dictFind l key := by
  induction l with
  | nil => simp [dictFind, h]
  | cons hd tl ih =>
      obtain ⟨k1, v1⟩ := hd
      by_cases hk : k1 = key <;> simp [dictFind, hk, ih]

theorem addIfTruthy_find_ne (i : PyValue) (k : String) (l l2 : List (String × PyValue))
    (key : String) (hk : ¬ (k = key)) (h : addIfTruthy i k l = Except.ok l2) :
    dictFind l2 key = dictFind l key := by
  simp only [addIfTruthy, except_bind_ok_iff, except_pure_eq, Except.ok.injEq] at h
  obtain ⟨v, hv, h2⟩ := h
  split at h2
  · simp only [except_bind_ok_iff, except_pure_eq, Except.ok.injEq] at h2
    obtain ⟨x, hx, h3⟩ := h2
    subst h3
    exact dictFind_append_single_ne l k key x hk
  · simp only [except_pure_eq, Except.ok.injEq] at h2
    subst h2
    rfl

theorem dictFind_dictSet_self (kvs : List (String × PyValue)) (k : String) (v : PyValue) :
    dictFind (dictSet kvs k v) k = some v := by
  induction kvs with
  | nil => simp [dictSet, dictFind]
  | cons hd tl ih =>
      obtain ⟨k1, v1⟩ := hd
      by_cases hk : k1 = k <;> simp [dictSet, dictFind, hk, ih]

theorem dictFind_dictSet_ne (kvs : List (String × PyValue)) (k k2 : String) (v : PyValue)
    (h : ¬ (k = k2)) : dictFind (dictSet kvs k v) k2 = dictFind kvs k2 := by
  induction kvs with
  | nil => simp [dictSet, dictFind, h]
  | cons hd tl ih =>
      obtain ⟨k1, v1⟩ := hd
      by_cases hk : k1 = k
      · subst hk
        simp [dictSet, dictFind, h]
      · by_cases hk2 : k1 = k2 <;> simp [dictSet, dictFind, hk, hk2, Ne.symm h, ih]

/-- After a successful `data["data"]["secret"] = "hidden"` the nested
secret reads back as `"hidden"` and the top-level `secret` entry is
untouched. -/
theorem hideSecret_spec (data d1 : PyValue) (h : hideSecret data = Except.ok d1) :
    subSecret d1 = Except.ok (PyValue.str "hidden")
    ∧ pyIndex d1 "secret" = pyIndex data "secret" := by
  cases data with
  | dict kvs =>
      simp only [hideSecret, pyIndex, pySetIndex, except_bind_ok_iff, except_pure_eq] at h
      obtain ⟨dd, hdd, h2⟩ := h
      cases hfind : dictFind kvs "data" with
      | none => rw [hfind] at hdd; cases hdd
      | some dd0 =>
          rw [hfind] at hdd
          cases hdd with
          | refl =>
              cases dd with
              | dict dkvs =>
                  simp only [except_bind_ok_iff, except_pure_eq, Except.ok.injEq] at h2
                  obtain ⟨dd2, hdd2, h3⟩ := h2
                  cases hdd2
                  cases h3
                  constructor
                  · simp [subSecret, pyIndex, dictFind_dictSet_self, dictFind_dictSet_ne,
                      Bind.bind, Except.bind]
                  · simp [pyIndex, dictFind_dictSet_ne]
              | str s => simp at h2
              | int n => simp at h2
              | float f => simp at h2
              | bool b => simp at h2
              | null => simp at h2
              | list xs => simp at h2
  | str s => simp [hideSecret, pyIndex, Bind.bind, Except.bind] at h
  | int n => simp [hideSecret, pyIndex, Bind.bind, Except.bind] at h
  | float f => simp [hideSecret, pyIndex, Bind.bind, Except.bind] at h
  | bool b => simp [hideSecret, pyIndex, Bind.bind, Except.bind] at h
  | null => simp [hideSecret, pyIndex, Bind.bind, Except.bind] at h
  | list xs => simp [hideSecret, pyIndex, Bind.bind, Except.bind] at h

/-- A successful pass of the observation loop leaves the payload
unchanged on the empty list and otherwise ends with the nested secret
hidden and the top-level secret preserved. -/
theorem handleLoop_spec (obs : List PyValue) (ap data d2 : PyValue)
    (acc calls : List SinkCall)
    (hh : handleLoop ap obs data acc = Except.ok (d2, calls)) :
    (obs = [] → d2 = data)
    ∧ (obs ≠ [] → subSecret d2 = Except.ok (PyValue.str "hidden")
        ∧ pyIndex d2 "secret" = pyIndex data "secret") := by
  induction obs generalizing data acc with
  | nil =>
      simp only [handleLoop] at hh
      cases hh
      exact ⟨fun _ => rfl, fun hne => absurd rfl hne⟩
  | cons o rest ih =>
      simp only [handleLoop, except_bind_ok_iff] at hh
      obtain ⟨d1, hd1, call, hcall, hrest⟩ := hh
      have hspec := hideSecret_spec data d1 hd1
      rcases ih d1 (acc ++ [call]) hrest with ⟨hnil, hcons⟩
      constructor
      · intro hne
        cases hne
      · intro hne2
        cases rest with
        | nil =>
            have hde : d2 = d1 := hnil rfl
            subst hde
            exact ⟨hspec.1, hspec.2⟩
        | cons o2 rest2 =>
            have h2 := hcons (by simp)
            exact ⟨h2.1, h2.2.trans hspec.2⟩

/-! The claims. -/

/-- Claim C1 (code bug): the debug serialization of the payload at line
69 of `MerakiView.post` happens before any redaction, so it contains the
configured secret verbatim rather than a placeholder, and even after the
full request is processed the top-level `secret` entry of the payload
still holds the configured secret (line 95 writes `"hidden"` into the
nested `data` dict instead): for the spec scenario payload, the only
debug-serialized payload is the raw payload whose `secret` field equals
the configured secret `s1`. -/
theorem meraki_C1_debug_log_contains_secret :
    (post sampleConfig samplePayload).1 = [samplePayload]
    ∧ pyIndex samplePayload "secret" = Except.ok (PyValue.str sampleConfig.secret)
    ∧ Except.map (fun o => pyIndex o.finalData "secret") (post sampleConfig samplePayload).2
        = Except.ok (Except.ok (PyValue.str sampleConfig.secret)) :=
  ⟨rfl, rfl, rfl⟩

/-- Claim C2, counterexample: an observation with non-NaN coordinates
and a missing `location.unc` field makes the normalizer raise `KeyError`
(the `except ValueError` at line 101 does not catch it); no
`PresenceUpdate` with `gps_accuracy = 0` is produced. -/
theorem meraki_C2_counterexample :
    processObservation (PyValue.str "AA:BB")
      (obsShapeNoUnc (PyValue.str "11:22") (PyValue.str "40.1") (PyValue.str "-3.7"))
      = Except.error PyError.keyError
    ∧ ∀ u : SinkCall, processObservation (PyValue.str "AA:BB")
        (obsShapeNoUnc (PyValue.str "11:22") (PyValue.str "40.1") (PyValue.str "-3.7"))
        ≠ Except.ok u := by
  have heq : processObservation (PyValue.str "AA:BB")
      (obsShapeNoUnc (PyValue.str "11:22") (PyValue.str "40.1") (PyValue.str "-3.7"))
      = Except.error PyError.keyError := rfl
  refine ⟨heq, fun u h => ?_⟩
  rw [heq] at h
  cases h

/-- Claim C2 (amended): for every observation with non-NaN coordinates
whose `location.unc` is present but is a string that fails float
parsing, the normalizer produces a `PresenceUpdate` with `gps_accuracy`
equal to 0; when `location.unc` is missing the lookup raises a
`KeyError` that propagates instead. -/
theorem meraki_C2_amended (ap mac lat lng : PyValue) (s : String)
    (hlat : pyEqStr lat "NaN" = false) (hlng : pyEqStr lng "NaN" = false)
    (hs : floatParse s = Option.none) :
    (∃ u, processObservation ap (obsShape mac lat lng (PyValue.str s)) = Except.ok u
      ∧ u.gps_accuracy = some 0)
    ∧ processObservation ap (obsShapeNoUnc mac lat lng) = Except.error PyError.keyError := by
  constructor
  · have hacc : caughtAccuracy (obsShape mac lat lng (PyValue.str s)) = Except.ok 0 := by
      simp [caughtAccuracy, uncAccuracy, obsShape, pyIndex, dictFind, pyFloatFn, hs,
        Bind.bind, Except.bind]
    simp only [processObservation, obsShape, except_bind_ok_iff, except_pure_eq,
      Except.ok.injEq]
    refine ⟨_, ⟨_, rfl, _, rfl, _, rfl, _, rfl, 0, ?_, _, rfl, _, rfl,
      _, rfl, _, rfl, _, rfl, _, rfl, _, rfl, _, rfl, rfl⟩, ?_⟩
    · simpa [obsShape] using hacc
    · simp [pyIndex, dictFind, hlat, hlng]
  · rfl

/-- Claim C2 witness: concrete instance of the amended claim at
coordinates `40.1` / `-3.7`, non-numeric uncertainty `abc`. -/
theorem meraki_C2_witness :
    pyEqStr (PyValue.str "40.1") "NaN" = false
    ∧ pyEqStr (PyValue.str "-3.7") "NaN" = false
    ∧ floatParse "abc" = Option.none
    ∧ ((∃ u, processObservation (PyValue.str "AA:BB")
          (obsShape (PyValue.str "11:22") (PyValue.str "40.1") (PyValue.str "-3.7")
            (PyValue.str "abc")) = Except.ok u ∧ u.gps_accuracy = some 0)
        ∧ processObservation (PyValue.str "AA:BB")
            (obsShapeNoUnc (PyValue.str "11:22") (PyValue.str "40.1") (PyValue.str "-3.7"))
            = Except.error PyError.keyError) :=
  ⟨rfl, rfl, rfl,
    meraki_C2_amended (PyValue.str "AA:BB") (PyValue.str "11:22") (PyValue.str "40.1")
      (PyValue.str "-3.7") "abc" rfl rfl rfl⟩

/-- Claim C3, counterexample: a well-formed payload with a valid secret
but no `version` field makes the handler raise `KeyError` at line 76
(surfacing as a 500, not a 422); there is no 422 response and no
outcome at all. -/
theorem meraki_C3_counterexample :
    (post sampleConfig payloadNoVersion).2 = Except.error PyError.keyError
    ∧ ∀ o : PostOutcome, (post sampleConfig payloadNoVersion).2 ≠ Except.ok o := by
  have heq : (post sampleConfig payloadNoVersion).2 = Except.error PyError.keyError := rfl
  refine ⟨heq, fun o h => ?_⟩
  rw [heq] at h
  cases h

/-- Claim C3 (amended): for every well-formed payload with a valid
(non-empty) secret whose `version` field is present but equal to neither
`2.0` nor `2.1`, the handler returns status 422 with message
`Invalid version` and no sink invocation occurs; a payload whose
`version` field is absent instead raises `KeyError`. -/
theorem meraki_C3_amended (cfg : Config) (hs : cfg.secret ≠ "") (v : PyValue)
    (h0 : pyEqStr v "2.0" = false) (h1 : pyEqStr v "2.1" = false)
    (rest : List (String × PyValue)) :
    (post cfg (badVersionPayload cfg v rest)).2
      = Except.ok { response := some ("Invalid version", 422), sinkCalls := [],
                    finalData := badVersionPayload cfg v rest } := by
  simp [post, badVersionPayload, pyGet, pyIndex, dictFind, pyTruthy, pyEqStr_str, hs, h0, h1,
    Bind.bind, Except.bind, except_pure_eq]

/-- Claim C3 witness: version `3.0` with the scenario secret yields the
422 `Invalid version` response and no sink calls. -/
theorem meraki_C3_witness :
    sampleConfig.secret ≠ ""
    ∧ pyEqStr (PyValue.str "3.0") "2.0" = false
    ∧ pyEqStr (PyValue.str "3.0") "2.1" = false
    ∧ (post sampleConfig (badVersionPayload sampleConfig (PyValue.str "3.0") [])).2
        = Except.ok { response := some ("Invalid version", 422), sinkCalls := [],
                      finalData := badVersionPayload sampleConfig (PyValue.str "3.0") [] } :=
  ⟨by decide, rfl, rfl,
    meraki_C3_amended sampleConfig (by decide) (PyValue.str "3.0") rfl rfl []⟩

/-- Claim C4, counterexample: a valid request (secret, version, type,
one observation) whose `data` dict has no `apMac` entry makes the
handler raise `KeyError` at line 93; processing does not succeed. -/
theorem meraki_C4_counterexample :
    (post sampleConfig payloadNoApMac).2 = Except.error PyError.keyError
    ∧ ∀ o : PostOutcome, (post sampleConfig payloadNoApMac).2 ≠ Except.ok o := by
  have heq : (post sampleConfig payloadNoApMac).2 = Except.error PyError.keyError := rfl
  refine ⟨heq, fun o h => ?_⟩
  rw [heq] at h
  cases h

/-- Claim C4 (amended): the request-level `data.apMac` must be present
(its absence raises `KeyError`); whenever it is present but falsy, every
`PresenceUpdate` the normalizer produces omits the `ap_mac` attribute
key. -/
theorem meraki_C4_amended (ap i : PyValue) (u : SinkCall)
    (hap : pyTruthy ap = false)
    (h : processObservation ap i = Except.ok u) :
    dictFind u.attributes "ap_mac" = Option.none := by
  simp only [processObservation, except_bind_ok_iff, except_pure_eq, Except.ok.injEq] at h
  obtain ⟨loc1, h1, lat, h2, loc2, h3, lng, h4, a0, h5, mac, h6, dn, h7,
    a1, h8, a2, h9, a3, h10, a4, h11, a5, h12, a6, h13, hu⟩ := h
  subst hu
  simp only [hap, Bool.false_eq_true, if_false]
  rw [addIfTruthy_find_ne i "ssid" a5 a6 "ap_mac" (by decide) h13,
      addIfTruthy_find_ne i "seenTime" a4 a5 "ap_mac" (by decide) h12,
      addIfTruthy_find_ne i "ipv6" a3 a4 "ap_mac" (by decide) h11,
      addIfTruthy_find_ne i "ipv4" a2 a3 "ap_mac" (by decide) h10,
      addIfTruthy_find_ne i "manufacturer" a1 a2 "ap_mac" (by decide) h9,
      addIfTruthy_find_ne i "os" [] a1 "ap_mac" (by decide) h8]
  rfl

/-- Claim C4 witness: with `apMac` equal to Python `None` (falsy) the
scenario observation is processed successfully and its attributes carry
no `ap_mac` key. -/
theorem meraki_C4_witness :
    pyTruthy PyValue.null = false
    ∧ processObservation PyValue.null sampleObservation = Except.ok sampleCallNoAp
    ∧ dictFind sampleCallNoAp.attributes "ap_mac" = Option.none :=
  ⟨rfl, rfl, meraki_C4_amended PyValue.null sampleObservation sampleCallNoAp rfl rfl⟩

/-- Claim C5 (confirmed): for every well-formed payload whose `secret`
field is absent, falsy, or not equal to the configured secret, the
handler returns status 422 with one of the two secret error messages and
no sink invocation occurs; the payload state is untouched and no other
validation error can be reported, whatever the remaining fields hold
(the secret gate runs before `version` or `type` are examined). -/
theorem meraki_C5_secret_gate (cfg : Config) (kvs : List (String × PyValue))
    (h : dictFind kvs "secret" = Option.none ∨
         ∃ v, dictFind kvs "secret" = some v ∧
           (pyTruthy v = false ∨ pyEqStr v cfg.secret = false)) :
    ∃ msg, (post cfg (PyValue.dict kvs)).2 =
        Except.ok { response := some (msg, 422), sinkCalls := [],
                    finalData := PyValue.dict kvs }
      ∧ (msg = "No secret" ∨ msg = "Invalid secret") := by
  rcases h with hfind | ⟨v, hfind, hv⟩
  · exact ⟨"No secret",
      by simp [post, pyGet, hfind, Bind.bind, Except.bind, pyTruthy, except_pure_eq], Or.inl rfl⟩
  · rcases hv with hv | hv
    · exact ⟨"No secret",
        by simp [post, pyGet, hfind, hv, Bind.bind, Except.bind, except_pure_eq], Or.inl rfl⟩
    · by_cases ht : pyTruthy v = true
      · exact ⟨"Invalid secret",
          by simp [post, pyGet, pyIndex, hfind, hv, ht, Bind.bind, Except.bind, except_pure_eq],
          Or.inr rfl⟩
      · have hv2 : pyTruthy v = false := Bool.eq_false_iff.mpr ht
        exact ⟨"No secret",
          by simp [post, pyGet, hfind, hv2, Bind.bind, Except.bind, except_pure_eq], Or.inl rfl⟩

/-- Claim C5 witness: a payload carrying the wrong secret `bad` (against
configured secret `s1`) is rejected with a 422 secret error. -/
theorem meraki_C5_witness :
    (dictFind [("secret", PyValue.str "bad")] "secret" = Option.none ∨
      ∃ v, dictFind [("secret", PyValue.str "bad")] "secret" = some v ∧
        (pyTruthy v = false ∨ pyEqStr v sampleConfig.secret = false))
    ∧ ∃ msg, (post sampleConfig (PyValue.dict [("secret", PyValue.str "bad")])).2 =
        Except.ok { response := some (msg, 422), sinkCalls := [],
                    finalData := PyValue.dict [("secret", PyValue.str "bad")] }
      ∧ (msg = "No secret" ∨ msg = "Invalid secret") :=
  ⟨Or.inr ⟨PyValue.str "bad", rfl, Or.inr rfl⟩,
    meraki_C5_secret_gate sampleConfig [("secret", PyValue.str "bad")]
      (Or.inr ⟨PyValue.str "bad", rfl, Or.inr rfl⟩)⟩

/-- Claim C6 (confirmed): for every observation of the full shape whose
processing yields a `PresenceUpdate`, if `lat` or `lng` equals the
literal string `NaN` (exact, case-sensitive string comparison) the
update has `gps` and `gps_accuracy` both absent, whatever `unc` held;
otherwise `gps` is exactly the pair `(lat, lng)` passed through
unmodified, with no numeric coercion. -/
theorem meraki_C6_nan_sentinel (ap mac lat lng unc : PyValue) (u : SinkCall)
    (h : processObservation ap (obsShape mac lat lng unc) = Except.ok u) :
    ((pyEqStr lat "NaN" || pyEqStr lng "NaN") = true →
        u.gps = Option.none ∧ u.gps_accuracy = Option.none)
    ∧ ((pyEqStr lat "NaN" || pyEqStr lng "NaN") = false →
        ∃ a, u.gps = some (lat, lng) ∧ u.gps_accuracy = some a) := by
  simp only [obsShape] at h
  rcases hacc : caughtAccuracy
      (PyValue.dict [("clientMac", mac),
        ("location", PyValue.dict [("lat", lat), ("lng", lng), ("unc", unc)])]) with e | n
  · simp [processObservation, hacc, pyIndex, dictFind, Bind.bind, Except.bind,
      pyGet, addIfTruthy, except_pure_eq] at h
  · simp [processObservation, hacc, pyIndex, dictFind, Bind.bind, Except.bind,
      pyGet, addIfTruthy, pyTruthy, except_pure_eq] at h
    subst h
    constructor
    · intro hc
      rcases Bool.or_eq_true_iff.mp hc with h1 | h1 <;> simp [h1]
    · intro hc
      simp only [Bool.or_eq_false_iff] at hc
      simp [hc.1, hc.2]

/-- Claim C6 witness: `lat = "NaN"` with valid `unc = "5.0"` gives an
update with both `gps` and `gps_accuracy` absent. -/
theorem meraki_C6_witness :
    processObservation (PyValue.str "AA:BB")
      (obsShape (PyValue.str "11:22") (PyValue.str "NaN") (PyValue.str "-3.7")
        (PyValue.str "5.0")) = Except.ok nanCall
    ∧ (((pyEqStr (PyValue.str "NaN") "NaN" || pyEqStr (PyValue.str "-3.7") "NaN") = true →
          nanCall.gps = Option.none ∧ nanCall.gps_accuracy = Option.none)
        ∧ ((pyEqStr (PyValue.str "NaN") "NaN" || pyEqStr (PyValue.str "-3.7") "NaN") = false →
          ∃ a, nanCall.gps = some (PyValue.str "NaN", PyValue.str "-3.7")
            ∧ nanCall.gps_accuracy = some a)) :=
  ⟨rfl, meraki_C6_nan_sentinel (PyValue.str "AA:BB") (PyValue.str "11:22") (PyValue.str "NaN")
    (PyValue.str "-3.7") (PyValue.str "5.0") nanCall rfl⟩

/-- Claim C7 (confirmed): every request with a valid (non-empty) secret,
a recognized version and type, and an empty observations list is
accepted with the bare `return` of line 88 — no error response and
exactly zero sink invocations — whatever other fields the payload or its
`data` dict carry. -/
theorem meraki_C7_empty_observations (cfg : Config) (hs : cfg.secret ≠ "") (ver ty : String)
    (hver : ver = "2.0" ∨ ver = "2.1")
    (hty : ty = "DevicesSeen" ∨ ty = "BluetoothDevicesSeen")
    (rest drest : List (String × PyValue)) :
    (post cfg (emptyObsPayload cfg ver ty rest drest)).2
      = Except.ok { response := Option.none, sinkCalls := [],
                    finalData := emptyObsPayload cfg ver ty rest drest } := by
  rcases hver with hver | hver <;> rcases hty with hty | hty <;> subst hver <;> subst hty <;>
    simp [post, emptyObsPayload, pyGet, pyIndex, dictFind, pyTruthy, pyEqStr, hs,
      Bind.bind, Except.bind, except_pure_eq]

/-- Claim C7 witness: the scenario configuration with version `2.0`,
type `DevicesSeen` and an empty observation list yields no error and no
sink call. -/
theorem meraki_C7_witness :
    sampleConfig.secret ≠ ""
    ∧ (("2.0" : String) = "2.0" ∨ ("2.0" : String) = "2.1")
    ∧ (("DevicesSeen" : String) = "DevicesSeen" ∨ ("DevicesSeen" : String) = "BluetoothDevicesSeen")
    ∧ (post sampleConfig (emptyObsPayload sampleConfig "2.0" "DevicesSeen" []
          [("apMac", PyValue.str "AA:BB")])).2
        = Except.ok { response := Option.none, sinkCalls := [],
                      finalData := emptyObsPayload sampleConfig "2.0" "DevicesSeen" []
                        [("apMac", PyValue.str "AA:BB")] } :=
  ⟨by decide, Or.inl rfl, Or.inl rfl,
    meraki_C7_empty_observations sampleConfig (by decide) "2.0" "DevicesSeen"
      (Or.inl rfl) (Or.inl rfl) [] [("apMac", PyValue.str "AA:BB")]⟩

/-- Claim C8 (confirmed): every `PresenceUpdate` the normalizer emits,
for any observation value whatsoever, has `gps` and `gps_accuracy`
either both present or both absent. -/
theorem meraki_C8_gps_accuracy_together (ap i : PyValue) (u : SinkCall)
    (h : processObservation ap i = Except.ok u) :
    (u.gps = Option.none ↔ u.gps_accuracy = Option.none) := by
  simp only [processObservation, except_bind_ok_iff, except_pure_eq, Except.ok.injEq] at h
  obtain ⟨loc1, h1, lat, h2, loc2, h3, lng, h4, a0, h5, mac, h6, dn, h7,
    a1, h8, a2, h9, a3, h10, a4, h11, a5, h12, a6, h13, hu⟩ := h
  subst hu
  by_cases hc : (pyEqStr lat "NaN" || pyEqStr lng "NaN") = true
  · simp [hc]
  · simp [hc]

/-- Claim C8 witness: the scenario observation produces `sampleCall`,
whose `gps` and `gps_accuracy` are both present. -/
theorem meraki_C8_witness :
    processObservation (PyValue.str "AA:BB") sampleObservation = Except.ok sampleCall
    ∧ (sampleCall.gps = Option.none ↔ sampleCall.gps_accuracy = Option.none) :=
  ⟨rfl, meraki_C8_gps_accuracy_together (PyValue.str "AA:BB") sampleObservation sampleCall rfl⟩

/-- Claim C9 (confirmed): the spec scenario — secret `s1`, version
`2.0`, type `DevicesSeen`, `apMac` `AA:BB` and one observation with
clientMac `11:22`, lat `40.1`, lng `-3.7`, unc `5.0`, ssid `Guest` —
produces exactly one sink invocation with mac `11:22`, gps
`("40.1", "-3.7")`, gps_accuracy 5, host_name `11:22` (the clientMac
fallback, since `name` is absent) and attributes ssid `Guest` plus
ap_mac `AA:BB`; and a fractional unc of `12.7` truncates to
gps_accuracy 12. -/
theorem meraki_C9_scenario :
    (post sampleConfig samplePayload).2 =
      Except.ok { response := Option.none, sinkCalls := [sampleCall],
                  finalData := samplePayloadAfter }
    ∧ sampleCall.mac = PyValue.str "11:22"
    ∧ sampleCall.gps = some (PyValue.str "40.1", PyValue.str "-3.7")
    ∧ sampleCall.gps_accuracy = some 5
    ∧ sampleCall.host_name = PyValue.str "11:22"
    ∧ sampleCall.attributes = [("ssid", PyValue.str "Guest"), ("ap_mac", PyValue.str "AA:BB")]
    ∧ Except.map SinkCall.gps_accuracy (processObservation (PyValue.str "AA:BB")
        (obsShape (PyValue.str "11:22") (PyValue.str "40.1") (PyValue.str "-3.7")
          (PyValue.str "12.7"))) = Except.ok (some 12) :=
  ⟨rfl, rfl, rfl, rfl, rfl, rfl, rfl⟩

/-- Claim C10 (confirmed): a successful `_handle` run over a non-empty
observation list writes `secret = "hidden"` into the nested `data` dict
of the caller's payload (the write runs once per observation),
leaves the top-level `secret` entry unchanged, and therefore does not
preserve the input structure whenever the nested secret did not already
read `"hidden"`. -/
theorem meraki_C10_mutation (data d2 : PyValue) (calls : List SinkCall)
    (dkvs : List (String × PyValue)) (obs : List PyValue)
    (hd : pyIndex data "data" = Except.ok (PyValue.dict dkvs))
    (hobs : dictFind dkvs "observations" = some (PyValue.list obs))
    (hne : obs ≠ [])
    (hh : handle data = Except.ok (d2, calls)) :
    subSecret d2 = Except.ok (PyValue.str "hidden")
    ∧ pyIndex d2 "secret" = pyIndex data "secret"
    ∧ (subSecret data ≠ Except.ok (PyValue.str "hidden") → d2 ≠ data) := by
  simp only [handle, except_bind_ok_iff] at hh
  obtain ⟨dd, hdd, ap, hap, dd2, hdd2, obsv, hobsv, hloop⟩ := hh
  rw [hd] at hdd
  cases hdd
  rw [hd] at hdd2
  cases hdd2
  simp only [pyIndex, hobs] at hobsv
  cases hobsv
  have hl := handleLoop_spec obs ap data d2 [] calls hloop
  have h2 := hl.2 hne
  exact ⟨h2.1, h2.2, fun hnot heq => hnot (heq ▸ h2.1)⟩

/-- Claim C10 witness: processing the scenario payload rewrites it to
`samplePayloadAfter`, whose nested data secret reads `hidden` while the
top-level secret still reads `s1`. -/
theorem meraki_C10_witness :
    pyIndex samplePayload "data" = Except.ok (PyValue.dict
      [("apMac", PyValue.str "AA:BB"), ("observations", PyValue.list [sampleObservation])])
    ∧ dictFind [("apMac", PyValue.str "AA:BB"),
        ("observations", PyValue.list [sampleObservation])] "observations"
        = some (PyValue.list [sampleObservation])
    ∧ [sampleObservation] ≠ []
    ∧ handle samplePayload = Except.ok (samplePayloadAfter, [sampleCall])
    ∧ (subSecret samplePayloadAfter = Except.ok (PyValue.str "hidden")
        ∧ pyIndex samplePayloadAfter "secret" = pyIndex samplePayload "secret"
        ∧ (subSecret samplePayload ≠ Except.ok (PyValue.str "hidden")
            → samplePayloadAfter ≠ samplePayload)) :=
  ⟨rfl, rfl, List.cons_ne_nil sampleObservation [], rfl,
    meraki_C10_mutation samplePayload samplePayloadAfter [sampleCall]
      [("apMac", PyValue.str "AA:BB"), ("observations", PyValue.list [sampleObservation])]
      [sampleObservation] rfl rfl (List.cons_ne_nil sampleObservation []) rfl⟩
